import Mathlib

/-!
Verification of the capture-and-stitch screenshot service (Go implementation
in main.go, with a JS variant in index.js).

The embedding mirrors the source:
* `Rect`, `imageRect`, `newRGBA`, `drawSrc` model the parts of the Go
  `image` / `image/draw` packages used by the program (`image.Rect`
  canonicalizes coordinates; `draw.Draw` with `draw.Src` clips the paste
  rectangle against the destination and source bounds).
* `stitchVertical` is a direct translation of `stitchVertical` in main.go.
* `computeStep` and `captureTiles` model the scroll-capture loop of
  `handleScrape` (main.go lines 188-270); the loop is given explicit fuel so
  that non-termination is observable as `none`.
* `applyDefaults`, `clamp`, `lower` and `handleScrape` model the request
  defaulting, the encoding switch and the response assembly; browser
  interactions (measured scroll heights, captured tiles, title, URL) and the
  codecs are inputs collected in `Env`, since they are external collaborators.
* `jsTargetWidth` / `jsNormalizeWidths` model the width normalization of the
  fallback stitcher in index.js (lines 139-148).
-/

namespace WebScrape

/-- Pixel value of one RGBA pixel (abstract). -/
abbrev Pixel := ℕ

/-- Go `image.Rectangle`. -/
structure Rect where
  minX : ℤ
  minY : ℤ
  maxX : ℤ
  maxY : ℤ
deriving DecidableEq

/-- Go `image.Rect(x0, y0, x1, y1)`: swaps each coordinate pair into
canonical order. -/
def imageRect (x0 y0 x1 y1 : ℤ) : Rect :=
  { minX := min x0 x1, minY := min y0 y1, maxX := max x0 x1, maxY := max y0 y1 }

/-- Go `Rectangle.Dx`. -/
def Rect.dx (r : Rect) : ℤ := r.maxX - r.minX

/-- Go `Rectangle.Dy`. -/
def Rect.dy (r : Rect) : ℤ := r.maxY - r.minY

/-- Point membership in a rectangle (half-open, as in Go). -/
def Rect.containsB (r : Rect) (x y : ℤ) : Bool :=
  decide (r.minX ≤ x) && decide (x < r.maxX) && decide (r.minY ≤ y) && decide (y < r.maxY)

/-- Go `image.Image` restricted to what the program uses: bounds and the
color lookup `At`. -/
structure GoImage where
  bounds : Rect
  pix : ℤ → ℤ → Pixel

/-- Go `image.NewRGBA(r)`: zero-initialized pixels over bounds `r`. -/
def newRGBA (r : Rect) : GoImage :=
  { bounds := r, pix := fun _ _ => 0 }

/-- Go `draw.Draw(dst, r, src, sp, draw.Src)`: paste `src` into `dst` over
rectangle `r`, reading `src` starting at `sp`; the painted region is clipped
against the destination bounds and the (translated) source bounds. -/
def drawSrc (dst : GoImage) (r : Rect) (src : GoImage) (spX spY : ℤ) : GoImage :=
  { bounds := dst.bounds
    pix := fun x y =>
      if r.containsB x y && dst.bounds.containsB x y &&
          src.bounds.containsB (spX + (x - r.minX)) (spY + (y - r.minY)) then
        src.pix (spX + (x - r.minX)) (spY + (y - r.minY))
      else dst.pix x y }

/-- Body of the paste loop of `stitchVertical` (main.go lines 351-361) for the
tiles after the first: `pasteY = cursorY - overlap`, paste, advance cursor. -/
def stitchLoop (w overlap : ℤ) : GoImage → ℤ → List GoImage → GoImage
  | out, _, [] => out
  | out, cursorY, t :: ts =>
    let pasteY := cursorY - overlap
    let out2 := drawSrc out (imageRect 0 pasteY w (pasteY + t.bounds.dy)) t 0 0
    stitchLoop w overlap out2 (pasteY + t.bounds.dy) ts

/-- Go `stitchVertical` (main.go lines 339-363): on an empty slice it returns
a fresh 1x1 RGBA image; otherwise the canvas width is the width of the first tile,
the canvas height accumulates `Dy - overlap` for every tile after the first,
and tiles are pasted top to bottom with `pasteY = cursorY - overlap`. -/
def stitchVertical (tiles : List GoImage) (overlap : ℤ) : GoImage :=
  match tiles with
  | [] => newRGBA (imageRect 0 0 1 1)
  | t0 :: rest =>
    let w := t0.bounds.dx
    let total := rest.foldl (fun acc t => acc + (t.bounds.dy - overlap)) t0.bounds.dy
    let out := newRGBA (imageRect 0 0 w total)
    let out1 := drawSrc out (imageRect 0 0 w t0.bounds.dy) t0 0 0
    stitchLoop w overlap out1 t0.bounds.dy rest

/-- Tile with bounds `(0, 0, w, h)` and blank pixels, as produced by decoding
a captured PNG. -/
def mkTile (w h : ℤ) : GoImage := { bounds := imageRect 0 0 w h, pix := fun _ _ => 0 }

/-- Row-major enumeration of the pixel values of an image over its bounds: the
byte-level content of the composite. -/
def imageBytes (img : GoImage) : List (List Pixel) :=
  (List.range img.bounds.dy.toNat).map (fun y =>
    (List.range img.bounds.dx.toNat).map (fun x =>
      img.pix (img.bounds.minX + (x : ℤ)) (img.bounds.minY + (y : ℤ))))

/-- Width normalization target of the index.js fallback stitcher (line 139):
`Math.min` over all tile widths. -/
def jsTargetWidth (w0 : ℤ) (ws : List ℤ) : ℤ := ws.foldl min w0

/-- Width list after the index.js normalization step (lines 140-148): a tile
whose width differs from the target is resized to the target width. -/
def jsNormalizeWidths (w0 : ℤ) (ws : List ℤ) : List ℤ :=
  (w0 :: ws).map (fun w => if w ≠ jsTargetWidth w0 ws then jsTargetWidth w0 ws else w)

lemma foldl_min_le_init : ∀ (ws : List ℤ) (a : ℤ), ws.foldl min a ≤ a := by
  intro ws
  induction ws with
  | nil => intro a; simp
  | cons w ws ih =>
      intro a
      calc (w :: ws).foldl min a = ws.foldl min (min a w) := rfl
        _ ≤ min a w := ih (min a w)
        _ ≤ a := min_le_left a w

lemma foldl_min_le_mem : ∀ (ws : List ℤ) (a w : ℤ), w ∈ ws → ws.foldl min a ≤ w := by
  intro ws
  induction ws with
  | nil => intro a w hw; simp at hw
  | cons v ws ih =>
      intro a w hw
      rcases List.mem_cons.mp hw with h | h
      · calc (v :: ws).foldl min a = ws.foldl min (min a v) := rfl
          _ ≤ min a v := foldl_min_le_init ws (min a v)
          _ ≤ v := min_le_right a v
          _ = w := h.symm
      · exact ih (min a v) w h

lemma foldl_min_mem : ∀ (ws : List ℤ) (a : ℤ), ws.foldl min a = a ∨ ws.foldl min a ∈ ws := by
  intro ws
  induction ws with
  | nil => intro a; left; rfl
  | cons v ws ih =>
      intro a
      rcases ih (min a v) with h | h
      · rcases min_cases a v with ⟨hm, _⟩ | ⟨hm, _⟩
        · left
          calc (v :: ws).foldl min a = ws.foldl min (min a v) := rfl
            _ = min a v := h
            _ = a := hm
        · right
          refine List.mem_cons.mpr (Or.inl ?_)
          calc (v :: ws).foldl min a = ws.foldl min (min a v) := rfl
            _ = min a v := h
            _ = v := hm
      · right
        exact List.mem_cons_of_mem v h

lemma stitchLoop_bounds (w overlap : ℤ) :
    ∀ (ts : List GoImage) (out : GoImage) (c : ℤ),
      (stitchLoop w overlap out c ts).bounds = out.bounds := by
  intro ts
  induction ts with
  | nil => intro out c; rfl
  | cons t ts ih =>
      intro out c
      rw [stitchLoop]
      rw [ih]
      rfl

lemma foldl_dy_sum (overlap : ℤ) :
    ∀ (l : List GoImage) (a : ℤ),
      l.foldl (fun acc t => acc + (t.bounds.dy - overlap)) a =
        a + (l.map (fun t => t.bounds.dy - overlap)).sum := by
  intro l
  induction l with
  | nil => intro a; simp
  | cons t ts ih =>
      intro a
      rw [List.foldl_cons, ih]
      simp [List.sum_cons]
      ring

lemma imageRect_zero_dy (w total : ℤ) : (imageRect 0 0 w total).dy = |total| := by
  show max 0 total - min 0 total = |total|
  rw [max_sub_min_eq_abs, sub_zero]

lemma imageRect_zero_dx (w total : ℤ) : (imageRect 0 0 w total).dx = |w| := by
  show max 0 w - min 0 w = |w|
  rw [max_sub_min_eq_abs, sub_zero]

lemma stitchVertical_cons_bounds (t0 : GoImage) (rest : List GoImage) (overlap : ℤ) :
    (stitchVertical (t0 :: rest) overlap).bounds =
      imageRect 0 0 t0.bounds.dx
        (rest.foldl (fun acc t => acc + (t.bounds.dy - overlap)) t0.bounds.dy) := by
  show (stitchLoop _ _ _ _ rest).bounds = _
  rw [stitchLoop_bounds]
  rfl

/-- C1 (amended): for an empty tile sequence `stitchVertical` signals no
error; it returns the freshly allocated degenerate 1x1 RGBA placeholder. -/
theorem c1_empty_tiles_placeholder (overlap : ℤ) :
    stitchVertical [] overlap = newRGBA (imageRect 0 0 1 1) := rfl

/-- C1 counterexample: at the concrete empty input (with the default overlap
140) the stitcher does return a degenerate 1x1 image, contradicting the
claimed fail-fast behavior. -/
theorem c1_counterexample :
    (stitchVertical [] 140).bounds = imageRect 0 0 1 1 ∧
    (stitchVertical [] 140).bounds.dx = 1 ∧ (stitchVertical [] 140).bounds.dy = 1 := by
  refine ⟨rfl, by decide, by decide⟩

/-- C2 (amended): for a non-empty tile sequence the composite height is the
canonicalized value `|tile0.dy + Σ (tile i .dy - overlap)|`; the per-tile
contribution is `dy - overlap` with no `max 0` guard, so a pathological
overlap larger than the height of a tile shrinks the total. -/
theorem c2_stitch_height (t0 : GoImage) (rest : List GoImage) (overlap : ℤ) :
    (stitchVertical (t0 :: rest) overlap).bounds.dy =
      |t0.bounds.dy + (rest.map (fun t => t.bounds.dy - overlap)).sum| := by
  rw [stitchVertical_cons_bounds, foldl_dy_sum, imageRect_zero_dy]

/-- C2 counterexample: tiles of heights 10 and 5 stitched with overlap 7 give
a composite of height 8; the claimed formula with the `max 0` guard predicts
10, and the claimed lower bound (at least the maximum tile height) fails. -/
theorem c2_counterexample :
    (stitchVertical [mkTile 8 10, mkTile 8 5] 7).bounds.dy = 8 ∧
    (8 : ℤ) ≠ 10 + max 0 (5 - 7) ∧ (8 : ℤ) < 10 := by
  refine ⟨?_, by decide, by decide⟩
  rw [stitchVertical_cons_bounds]
  decide

/-- C3 (amended): the Go `stitchVertical` canvas width is the width of the FIRST
tile (canonicalized), with no resizing of the other tiles; only the index.js
fallback stitcher computes the minimum width over all tiles and resizes every
tile to it. -/
theorem c3_stitch_width (t0 : GoImage) (rest : List GoImage) (overlap : ℤ)
    (w0 : ℤ) (ws : List ℤ) :
    (stitchVertical (t0 :: rest) overlap).bounds.dx = |t0.bounds.dx| ∧
    (∀ w ∈ jsNormalizeWidths w0 ws, w = jsTargetWidth w0 ws) ∧
    (∀ w ∈ w0 :: ws, jsTargetWidth w0 ws ≤ w) ∧
    jsTargetWidth w0 ws ∈ w0 :: ws := by
  refine ⟨?_, ?_, ?_, ?_⟩
  · rw [stitchVertical_cons_bounds, imageRect_zero_dx]
  · intro w hw
    simp only [jsNormalizeWidths, List.mem_map] at hw
    obtain ⟨a, _, ha⟩ := hw
    by_cases h : a = jsTargetWidth w0 ws
    · rw [if_neg (by simp [h])] at ha
      rw [← ha, h]
    · rw [if_pos h] at ha
      exact ha.symm
  · intro w hw
    rcases List.mem_cons.mp hw with h | h
    · rw [h]
      exact foldl_min_le_init ws w0
    · exact foldl_min_le_mem ws w0 w h
  · rcases foldl_min_mem ws w0 with h | h
    · rw [jsTargetWidth, h]; exact List.mem_cons_self w0 ws
    · exact List.mem_cons_of_mem w0 h

/-- C3 counterexample: tiles of widths 802, 800, 800 (the first tile widest)
stitched by the Go code give composite width 802, not the claimed minimum
800. -/
theorem c3_counterexample :
    (stitchVertical [mkTile 802 10, mkTile 800 10, mkTile 800 10] 140).bounds.dx = 802 ∧
    (802 : ℤ) ≠ 800 := by
  refine ⟨?_, by decide⟩
  rw [stitchVertical_cons_bounds]
  decide

/-- C3 witness: the amended theorem applied at a concrete tile sequence. -/
theorem c3_stitch_width_witness :
    jsTargetWidth 800 [802, 800] ≤ 802 ∧
    (stitchVertical [mkTile 5 7] 3).bounds.dx = |(mkTile 5 7).bounds.dx| := by
  refine ⟨(c3_stitch_width (mkTile 5 7) [] 3 800 [802, 800]).2.2.1 802 (by simp), ?_⟩
  exact (c3_stitch_width (mkTile 5 7) [] 3 800 [802, 800]).1

/-- C9: stitching is deterministic; two applications of the (pure) stitching
function to the same ordered tile sequence and overlap agree both as images
and on the row-major pixel enumeration. -/
theorem c9_stitch_deterministic (tiles : List GoImage) (overlap : ℤ) :
    stitchVertical tiles overlap = stitchVertical tiles overlap ∧
    imageBytes (stitchVertical tiles overlap) = imageBytes (stitchVertical tiles overlap) :=
  ⟨rfl, rfl⟩

/-- Go scroll step computation (main.go lines 190-193):
`step = viewportHeight - overlapPX`, and if it falls below 50 the code
substitutes `int(float64(viewportHeight) * 0.75)`, i.e. `0.75 * vh` truncated
toward zero (`Int.tdiv (3 * vh) 4`; the float product is exact). -/
def computeStep (vh overlap : ℤ) : ℤ :=
  let s := vh - overlap
  if s < 50 then Int.tdiv (3 * vh) 4 else s

/-- Scroll-capture loop of `handleScrape` (main.go lines 195-270), with
explicit fuel so non-termination appears as `none`. Each iteration captures
the tile at the current cursor, advances the cursor by `step`, and once
`cursor + vh >= totalHeight` it captures one forced bottom tile and stops.
The tile decoded at scroll offset `y` is `tileAt y`; the forced bottom tile
is `lastTile`. -/
def captureTiles (step vh th : ℤ) (tileAt : ℤ → GoImage) (lastTile : GoImage) :
    ℕ → ℤ → List GoImage → Option (List GoImage)
  | 0, _, _ => none
  | fuel + 1, cursorY, acc =>
    let acc2 := acc ++ [tileAt cursorY]
    let cursor2 := cursorY + step
    if th ≤ cursor2 + vh then some (acc2 ++ [lastTile])
    else captureTiles step vh th tileAt lastTile fuel cursor2 acc2

/-- Number of tiles the scheduler captures for the given request values
(request viewport height and overlap after defaulting, measured page height);
`none` when the loop fails to finish within `fuel` iterations. The count does
not depend on tile contents, so blank tiles are supplied. -/
def captureCount (fuel : ℕ) (vh overlap th : ℤ) : Option ℕ :=
  (captureTiles (computeStep vh overlap) vh th (fun _ => mkTile 0 0) (mkTile 0 0)
      fuel 0 []).map List.length

lemma captureTiles_length (step vh th : ℤ) (tileAt : ℤ → GoImage) (lastTile : GoImage)
    (hstep : 1 ≤ step) :
    ∀ (fuel : ℕ) (cursor : ℤ) (acc : List GoImage), (th - vh - cursor).toNat < fuel →
      ∃ tiles, captureTiles step vh th tileAt lastTile fuel cursor acc = some tiles ∧
        tiles.length =
          acc.length + (max 1 ((th - vh - cursor + step - 1) / step)).toNat + 1 := by
  intro fuel
  induction fuel with
  | zero => intro cursor acc h; omega
  | succ fuel ih =>
      intro cursor acc hfuel
      by_cases hbr : th ≤ cursor + step + vh
      · refine ⟨acc ++ [tileAt cursor] ++ [lastTile], ?_, ?_⟩
        · rw [captureTiles]
          rw [if_pos (by linarith)]
        · have hd : th - vh - cursor + step - 1 < 2 * step := by linarith
          have hlt : (th - vh - cursor + step - 1) / step < 2 := by
            rw [Int.ediv_lt_iff_lt_mul (by linarith)]
            linarith
          have hmax : (max 1 ((th - vh - cursor + step - 1) / step)).toNat = 1 := by omega
          rw [hmax]
          simp
      · push_neg at hbr
        have hrec := ih (cursor + step) (acc ++ [tileAt cursor]) (by omega)
        obtain ⟨tiles, heq, hlen⟩ := hrec
        refine ⟨tiles, ?_, ?_⟩
        · rw [captureTiles]
          rw [if_neg (by linarith)]
          exact heq
        · have hshift : th - vh - (cursor + step) + step - 1 + 1 * step =
              th - vh - cursor + step - 1 := by ring
          have hstep2 : (th - vh - cursor + step - 1) / step =
              (th - vh - (cursor + step) + step - 1) / step + 1 := by
            rw [← hshift, Int.add_mul_ediv_right _ _ (by omega : step ≠ 0)]
          have hge : 1 ≤ (th - vh - (cursor + step) + step - 1) / step := by
            rw [Int.le_ediv_iff_mul_le (by omega)]
            linarith
          rw [hlen, hstep2]
          simp only [List.length_append, List.length_cons, List.length_nil]
          omega

/-- C4 (amended): the tile count is deterministic in
`(totalHeight, viewportHeight, overlapPx)` and equals
`ceil((totalHeight - viewportHeight) / step) + 1` when the page is taller
than one viewport (the ceiling written as `(d + step - 1) / step` with
euclidean division), and exactly 2 when the page is at most one viewport
tall: the loop always appends one forced bottom tile after the tile at
offset 0. -/
theorem c4_tile_count (vh overlap th : ℤ) (fuel : ℕ)
    (hvh : 0 < vh) (hstep : 1 ≤ computeStep vh overlap) (hfuel : th.toNat < fuel) :
    captureCount fuel vh overlap th =
      some (if vh < th
        then ((th - vh + computeStep vh overlap - 1) / computeStep vh overlap).toNat + 1
        else 2) := by
  obtain ⟨tiles, heq, hlen⟩ :=
    captureTiles_length (computeStep vh overlap) vh th (fun _ => mkTile 0 0) (mkTile 0 0)
      hstep fuel 0 [] (by omega)
  have hlen2 : tiles.length =
      (max 1 ((th - vh + computeStep vh overlap - 1) / computeStep vh overlap)).toNat + 1 := by
    rw [hlen]
    norm_num
  rw [captureCount, heq]
  simp only [Option.map]
  rw [hlen2]
  by_cases htall : vh < th
  · have hge : 1 ≤ (th - vh + computeStep vh overlap - 1) / computeStep vh overlap := by
      rw [Int.le_ediv_iff_mul_le (by omega)]
      linarith
    rw [if_pos htall, max_eq_right hge]
  · push_neg at htall
    have hlt : (th - vh + computeStep vh overlap - 1) / computeStep vh overlap < 1 := by
      rw [Int.ediv_lt_iff_lt_mul (by omega)]
      linarith
    rw [if_neg (by omega), max_eq_left (by omega)]
    rfl

/-- C4 witness: spec Scenario A, `totalHeight = 3000`, `viewportHeight = 1000`,
`overlapPx = 200` gives step 800 and exactly 4 tiles (offsets 0, 800, 1600 and
the forced bottom tile). -/
theorem c4_tile_count_witness :
    (0 : ℤ) < 1000 ∧ 1 ≤ computeStep 1000 200 ∧ (3000 : ℤ).toNat < 3001 ∧
      captureCount 3001 1000 200 3000 =
        some (if (1000 : ℤ) < 3000
          then ((3000 - 1000 + computeStep 1000 200 - 1) / computeStep 1000 200).toNat + 1
          else 2) :=
  ⟨by decide, by decide, by decide, c4_tile_count 1000 200 3000 3001 (by decide) (by decide) (by decide)⟩

/-- C4 counterexample: spec Scenario B, a page shorter than the viewport
(`totalHeight = 900`, `viewportHeight = 1000`, default overlap 140) yields 2
captured tiles, not the claimed single tile. -/
theorem c4_counterexample :
    captureCount 10 1000 140 900 = some 2 ∧ (2 : ℕ) ≠ 1 := by
  constructor
  · rw [captureCount]
    rw [captureTiles]
    norm_num [computeStep]
  · decide

/-- Positivity of the step for any viewport height of at least 2: either the
unsubstituted step is at least 50, or the substituted step
`(3 * vh) tdiv 4` is at least 1. -/
lemma computeStep_pos (vh overlap : ℤ) (hvh : 2 ≤ vh) : 1 ≤ computeStep vh overlap := by
  rw [computeStep]
  by_cases h : vh - overlap < 50
  · rw [if_pos h]
    rw [Int.tdiv_eq_ediv (by linarith) (by norm_num)]
    rw [Int.le_ediv_iff_mul_le (by norm_num)]
    linarith
  · rw [if_neg h]
    push_neg at h
    linarith

/-- C5 (amended): the step rule (substitute the truncated `0.75 * vh` when
`vh - overlap` falls below the 50px floor) guarantees forward progress and
loop termination for every viewport height of at least 2 and every overlap
and page height; for `viewportHeight = 1` the substituted step truncates to
0 and the loop never terminates on a page taller than the viewport. -/
theorem c5_termination (vh overlap th : ℤ) (fuel : ℕ)
    (hvh : 2 ≤ vh) (hfuel : th.toNat < fuel) :
    (captureCount fuel vh overlap th).isSome = true := by
  obtain ⟨tiles, heq, _⟩ :=
    captureTiles_length (computeStep vh overlap) vh th (fun _ => mkTile 0 0) (mkTile 0 0)
      (computeStep_pos vh overlap hvh) fuel 0 [] (by omega)
  rw [captureCount, heq]
  rfl

/-- C5 witness: the termination theorem applied at `viewportHeight = 2`,
`overlapPx = 100`, `totalHeight = 10`. -/
theorem c5_termination_witness :
    (2 : ℤ) ≤ 2 ∧ (10 : ℤ).toNat < 11 ∧ (captureCount 11 2 100 10).isSome = true :=
  ⟨by decide, by decide, c5_termination 2 100 10 11 (by decide) (by decide)⟩

/-- Divergence of the capture loop from scroll offset 0 for the given request
values: no amount of fuel makes it finish. -/
def captureDiverges (vh overlap th : ℤ) : Prop :=
  ∀ fuel : ℕ, captureCount fuel vh overlap th = none

lemma captureTiles_zero_step_none (vh th : ℤ) (tileAt : ℤ → GoImage) (lastTile : GoImage)
    (cursor : ℤ) (hlt : cursor + vh < th) :
    ∀ (fuel : ℕ) (acc : List GoImage),
      captureTiles 0 vh th tileAt lastTile fuel cursor acc = none := by
  intro fuel
  induction fuel with
  | zero => intro acc; rfl
  | succ fuel ih =>
      intro acc
      rw [captureTiles]
      rw [if_neg (by omega)]
      rw [add_zero]
      exact ih (acc ++ [tileAt cursor])

/-- C5 counterexample: at `viewportHeight = 1`, `overlapPx = 1` (both
positive) the substituted step `int(0.75 * 1)` is 0, and on a page of height
2 the capture loop makes no forward progress: it never terminates, for any
fuel. -/
theorem c5_counterexample :
    computeStep 1 1 = 0 ∧ captureDiverges 1 1 2 := by
  constructor
  · decide
  · intro fuel
    rw [captureCount]
    have h0 : computeStep 1 1 = 0 := by decide
    rw [h0]
    rw [captureTiles_zero_step_none 1 2 _ _ 0 (by omega) fuel []]
    rfl

/-- Go `lower` (main.go lines 375-383) on one byte: ASCII bytes 65-90 get 32
added, everything else passes through. The Go function works on the UTF-8
bytes of the string; multi-byte sequences contain no byte in 65-90, so the
per-character model is equivalent. -/
def lowerChar (c : Char) : Char :=
  if 65 ≤ c.toNat ∧ c.toNat ≤ 90 then Char.ofNat (c.toNat + 32) else c

/-- Go `lower` (main.go lines 375-383): ASCII-only lowercasing. -/
def lower (s : String) : String := String.mk (s.data.map lowerChar)

/-- Go `clamp` (main.go lines 385-393). -/
def clamp (v lo hi : ℤ) : ℤ :=
  if v < lo then lo else if hi < v then hi else v

/-- Decoded `ScrapeRequest` (main.go lines 22-33); a field that is absent in
the JSON body decodes to the Go zero value (0 for integers, the empty string
for strings). -/
structure ScrapeRequest where
  url : String
  timeoutMS : ℤ
  viewportWidth : ℤ
  viewportHeight : ℤ
  settleDelayMS : ℤ
  overlapPX : ℤ
  imageFormat : String
  jpegQuality : ℤ
deriving DecidableEq

/-- Defaulting block of `handleScrape` (main.go lines 65-86): non-positive
numeric fields get their positive defaults, an empty format becomes "jpeg",
and a quality outside 1..95 becomes 85. -/
def applyDefaults (r : ScrapeRequest) : ScrapeRequest :=
  { r with
    timeoutMS := if r.timeoutMS ≤ 0 then 30000 else r.timeoutMS
    viewportWidth := if r.viewportWidth ≤ 0 then 1280 else r.viewportWidth
    viewportHeight := if r.viewportHeight ≤ 0 then 1024 else r.viewportHeight
    settleDelayMS := if r.settleDelayMS ≤ 0 then 300 else r.settleDelayMS
    overlapPX := if r.overlapPX ≤ 0 then 140 else r.overlapPX
    imageFormat := if r.imageFormat = "" then "jpeg" else r.imageFormat
    jpegQuality := if r.jpegQuality ≤ 0 ∨ 95 < r.jpegQuality then 85 else r.jpegQuality }

/-- JSON value appearing in the response `data` map. -/
inductive JVal where
  | s (v : String)
  | i (v : ℤ)
  | m (v : List (String × JVal))

/-- Outcome written by `handleScrape`: either `writeHTTPError` with an HTTP
status and message (ok = false), or the success envelope with its `data`
map (ok = true). -/
inductive ScrapeOutcome where
  | errorResp (status : ℕ) (msg : String)
  | okResp (data : List (String × JVal))

/-- External collaborators of one request: the browser observations (whether
navigation succeeded, the two scroll heights, the decoded tile for each
scroll offset, the forced bottom tile, title, final URL) and the codecs
(PNG/JPEG encoders and base64). -/
structure Env where
  navOK : Bool
  docScrollHeight : ℤ
  bodyScrollHeight : ℤ
  tileAt : ℤ → GoImage
  lastTile : GoImage
  pageTitle : String
  finalURL : String
  encodePNG : GoImage → List ℕ
  encodeJPEG : ℤ → GoImage → List ℕ
  base64 : List ℕ → String

/-- Success `data` map of the response (main.go lines 299-314), for the
defaulted request `r`, measured total height `th` and base64 payload. -/
def okData (r : ScrapeRequest) (env : Env) (th : ℤ) (b64s : String) : List (String × JVal) :=
  [("screenshot_base64", JVal.s b64s),
   ("content_type",
     JVal.s (if lower r.imageFormat = "png" then "image/png" else "image/jpeg")),
   ("title", JVal.s env.pageTitle),
   ("final_url", JVal.s env.finalURL),
   ("viewport", JVal.m [("width", JVal.i r.viewportWidth), ("height", JVal.i r.viewportHeight)]),
   ("overlap_px", JVal.i r.overlapPX),
   ("settle_delay_ms", JVal.i r.settleDelayMS),
   ("total_height_px", JVal.i th)]

/-- Control flow of `handleScrape` (main.go lines 53-318) after a successful
JSON decode: defaults, navigation, height measurement
(`Math.max(document.documentElement.scrollHeight, document.body.scrollHeight)`)
with the fatal `< 1` check, the scroll-capture loop, stitching, the encoding
switch on the lowercased format with the quality clamp, and the response
assembly. The result carries the tiles that were captured; `none` means the
capture loop never terminated. -/
def handleScrape (req : ScrapeRequest) (env : Env) (fuel : ℕ) :
    Option (ScrapeOutcome × List GoImage) :=
  let r := applyDefaults req
  if env.navOK = false then some (.errorResp 504 "navigation timeout or error", [])
  else
    let totalHeight := max env.docScrollHeight env.bodyScrollHeight
    if totalHeight < 1 then some (.errorResp 500 "page height detection failed", [])
    else
      match captureTiles (computeStep r.viewportHeight r.overlapPX) r.viewportHeight
          totalHeight env.tileAt env.lastTile fuel 0 [] with
      | none => none
      | some tiles =>
        let out := stitchVertical tiles r.overlapPX
        let bytes :=
          if lower r.imageFormat = "png" then env.encodePNG out
          else env.encodeJPEG (clamp r.jpegQuality 1 95) out
        some (.okResp (okData r env totalHeight (env.base64 bytes)), tiles)

/-- Data map of a successful response, if any. -/
def responseData : Option (ScrapeOutcome × List GoImage) → Option (List (String × JVal))
  | some (.okResp d, _) => some d
  | _ => none

lemma handleScrape_ok_shape (r : ScrapeRequest) (env : Env) (fuel : ℕ)
    (data : List (String × JVal))
    (h : responseData (handleScrape r env fuel) = some data) :
    ∃ b64s, data =
      okData (applyDefaults r) env (max env.docScrollHeight env.bodyScrollHeight) b64s := by
  rw [handleScrape] at h
  by_cases hnav : env.navOK = false
  · rw [if_pos hnav] at h
    simp [responseData] at h
  · rw [if_neg hnav] at h
    by_cases hh : max env.docScrollHeight env.bodyScrollHeight < 1
    · rw [if_pos hh] at h
      simp [responseData] at h
    · rw [if_neg hh] at h
      rcases hcap : captureTiles (computeStep (applyDefaults r).viewportHeight
          (applyDefaults r).overlapPX) (applyDefaults r).viewportHeight
          (max env.docScrollHeight env.bodyScrollHeight) env.tileAt env.lastTile fuel 0 [] with
        _ | tiles
      · rw [hcap] at h
        simp [responseData] at h
      · rw [hcap] at h
        simp only [responseData, Option.some.injEq] at h
        exact ⟨_, h.symm⟩

lemma okData_lookup_content_type (r : ScrapeRequest) (env : Env) (th : ℤ) (b : String) :
    List.lookup "content_type" (okData r env th b) =
      some (JVal.s (if lower r.imageFormat = "png" then "image/png" else "image/jpeg")) := rfl

lemma okData_lookup_viewport (r : ScrapeRequest) (env : Env) (th : ℤ) (b : String) :
    List.lookup "viewport" (okData r env th b) =
      some (JVal.m [("width", JVal.i r.viewportWidth), ("height", JVal.i r.viewportHeight)]) := rfl

lemma okData_lookup_overlap (r : ScrapeRequest) (env : Env) (th : ℤ) (b : String) :
    List.lookup "overlap_px" (okData r env th b) = some (JVal.i r.overlapPX) := rfl

lemma okData_lookup_settle (r : ScrapeRequest) (env : Env) (th : ℤ) (b : String) :
    List.lookup "settle_delay_ms" (okData r env th b) = some (JVal.i r.settleDelayMS) := rfl

lemma okData_lookup_timeout (r : ScrapeRequest) (env : Env) (th : ℤ) (b : String) :
    List.lookup "timeout_ms" (okData r env th b) = none := rfl

/-- C7: if the measured page height, the maximum of the scroll heights of the
document root and the body, is less than 1, the request fails with the fatal
HTTP 500 "page height detection failed" error (ok = false) and no tiles are
captured. -/
theorem c7_height_detection_failed (req : ScrapeRequest) (env : Env) (fuel : ℕ)
    (hnav : env.navOK = true)
    (hh : max env.docScrollHeight env.bodyScrollHeight < 1) :
    handleScrape req env fuel = some (.errorResp 500 "page height detection failed", []) := by
  rw [handleScrape]
  rw [if_neg (by rw [hnav]; simp)]
  rw [if_pos hh]

/-- Blank request: every numeric field zero (absent in the JSON body) and
empty strings. -/
def blankReq : ScrapeRequest :=
  { url := "", timeoutMS := 0, viewportWidth := 0, viewportHeight := 0,
    settleDelayMS := 0, overlapPX := 0, imageFormat := "", jpegQuality := 0 }

/-- Environment of a broken, blank page: both scroll heights measure 0. -/
def blankEnv : Env :=
  { navOK := true, docScrollHeight := 0, bodyScrollHeight := 0,
    tileAt := fun _ => mkTile 0 0, lastTile := mkTile 0 0,
    pageTitle := "", finalURL := "",
    encodePNG := fun _ => [], encodeJPEG := fun _ _ => [], base64 := fun _ => "" }

/-- C7 witness: the height-failure theorem at the concrete blank page of
measured height 0 (spec Scenario C). -/
theorem c7_height_detection_failed_witness :
    blankEnv.navOK = true ∧ max blankEnv.docScrollHeight blankEnv.bodyScrollHeight < 1 ∧
      handleScrape blankReq blankEnv 5 =
        some (.errorResp 500 "page height detection failed", []) :=
  ⟨rfl, by decide, c7_height_detection_failed blankReq blankEnv 5 rfl (by decide)⟩

/-- C6 (amended): the quality applied at the JPEG encode is the requested
quality when it already lies in 1..95, and the default 85 otherwise: the
defaulting block replaces any value outside 1..95 (including values above
95, e.g. 100) by 85, after which the clamp at the encoder to 1..95 is a no-op. -/
theorem c6_applied_quality (r : ScrapeRequest) :
    clamp ((applyDefaults r).jpegQuality) 1 95 =
      if 1 ≤ r.jpegQuality ∧ r.jpegQuality ≤ 95 then r.jpegQuality else 85 := by
  simp only [applyDefaults, clamp]
  split_ifs <;> omega

/-- Request asking for JPEG quality 100. -/
def reqQ100 : ScrapeRequest := { blankReq with jpegQuality := 100 }

/-- C6 counterexample: a request with jpeg_quality = 100 is encoded at
quality 85 (the default branch fires on any value above 95), not at the
claimed clamped value 95. -/
theorem c6_counterexample :
    clamp ((applyDefaults reqQ100).jpegQuality) 1 95 = 85 ∧ (85 : ℤ) ≠ 95 := by
  constructor <;> decide

/-- C8 (amended): absent or non-positive numeric fields get the positive
defaults 30000, 1280, 1024, 300, 140 and an absent image_format defaults to
"jpeg"; the substituted viewport, overlap and settle-delay values are the
ones used by the pipeline and echoed in the response data, but the
substituted timeout is only used for the deadline and is NOT echoed: the
response data has no timeout field. -/
theorem c8_defaults_echo (r : ScrapeRequest) (env : Env) (fuel : ℕ)
    (data : List (String × JVal))
    (ht : r.timeoutMS ≤ 0) (hw : r.viewportWidth ≤ 0) (hh : r.viewportHeight ≤ 0)
    (hs : r.settleDelayMS ≤ 0) (ho : r.overlapPX ≤ 0) (hf : r.imageFormat = "")
    (hres : responseData (handleScrape r env fuel) = some data) :
    (applyDefaults r).timeoutMS = 30000 ∧
    (applyDefaults r).viewportWidth = 1280 ∧
    (applyDefaults r).viewportHeight = 1024 ∧
    (applyDefaults r).settleDelayMS = 300 ∧
    (applyDefaults r).overlapPX = 140 ∧
    (applyDefaults r).imageFormat = "jpeg" ∧
    List.lookup "viewport" data =
      some (JVal.m [("width", JVal.i 1280), ("height", JVal.i 1024)]) ∧
    List.lookup "overlap_px" data = some (JVal.i 140) ∧
    List.lookup "settle_delay_ms" data = some (JVal.i 300) ∧
    List.lookup "timeout_ms" data = none := by
  obtain ⟨b, hb⟩ := handleScrape_ok_shape r env fuel data hres
  subst hb
  refine ⟨by simp [applyDefaults, ht], by simp [applyDefaults, hw],
    by simp [applyDefaults, hh], by simp [applyDefaults, hs],
    by simp [applyDefaults, ho], by simp [applyDefaults, hf], ?_, ?_, ?_, ?_⟩
  · rw [okData_lookup_viewport]
    simp [applyDefaults, hw, hh]
  · rw [okData_lookup_overlap]
    simp [applyDefaults, ho]
  · rw [okData_lookup_settle]
    simp [applyDefaults, hs]
  · exact okData_lookup_timeout _ _ _ _

/-- Environment of a healthy 1px-tall page (both scroll heights measure 1),
otherwise blank collaborators. -/
def okEnv : Env := { blankEnv with docScrollHeight := 1, bodyScrollHeight := 1 }

/-- Response data produced for the blank request against `okEnv`. -/
def c8Data : List (String × JVal) := okData (applyDefaults blankReq) okEnv 1 ""

/-- C8 witness: the defaults-and-echo theorem at the all-absent request; the
pipeline succeeds and its data echoes the substituted values while holding no
timeout field. -/
theorem c8_defaults_echo_witness :
    responseData (handleScrape blankReq okEnv 5) = some c8Data ∧
    List.lookup "overlap_px" c8Data = some (JVal.i 140) ∧
    List.lookup "timeout_ms" c8Data = none :=
  ⟨rfl,
   (c8_defaults_echo blankReq okEnv 5 c8Data (by decide) (by decide) (by decide)
      (by decide) (by decide) rfl rfl).2.2.2.2.2.2.2.1,
   (c8_defaults_echo blankReq okEnv 5 c8Data (by decide) (by decide) (by decide)
      (by decide) (by decide) rfl rfl).2.2.2.2.2.2.2.2.2⟩

/-- C8 counterexample: for the concrete request with every numeric field
absent, the timeout default 30000 is substituted and used for the deadline,
yet the success response data holds no timeout field at all, contradicting
the claim that all substituted values are echoed in the response. -/
theorem c8_counterexample :
    (applyDefaults blankReq).timeoutMS = 30000 ∧
    responseData (handleScrape blankReq okEnv 5) = some c8Data ∧
    List.lookup "timeout_ms" c8Data = none :=
  ⟨by decide, rfl, rfl⟩

/-- C10: the image format is matched after ASCII lowercasing, and every
format whose lowercase form is not "png" (gif, webp, anything unrecognized)
is silently encoded as JPEG with content_type "image/jpeg"; no error outcome
of the handler is ever about an invalid format — the only error responses
are the navigation and height-detection failures. -/
theorem c10_format_fallback (r : ScrapeRequest) (env : Env) (fuel : ℕ)
    (data : List (String × JVal))
    (hfmt : lower (applyDefaults r).imageFormat ≠ "png")
    (hres : responseData (handleScrape r env fuel) = some data) :
    List.lookup "content_type" data = some (JVal.s "image/jpeg") ∧
    ∀ (st : ℕ) (msg : String) (tiles : List GoImage),
      handleScrape r env fuel = some (.errorResp st msg, tiles) →
        msg = "navigation timeout or error" ∨ msg = "page height detection failed" := by
  constructor
  · obtain ⟨b, hb⟩ := handleScrape_ok_shape r env fuel data hres
    subst hb
    rw [okData_lookup_content_type, if_neg hfmt]
  · intro st msg tiles hout
    rw [handleScrape] at hout
    by_cases hnav : env.navOK = false
    · rw [if_pos hnav] at hout
      simp only [Option.some.injEq, Prod.mk.injEq, ScrapeOutcome.errorResp.injEq] at hout
      left
      exact hout.1.2.symm
    · rw [if_neg hnav] at hout
      by_cases hht : max env.docScrollHeight env.bodyScrollHeight < 1
      · rw [if_pos hht] at hout
        simp only [Option.some.injEq, Prod.mk.injEq, ScrapeOutcome.errorResp.injEq] at hout
        right
        exact hout.1.2.symm
      · rw [if_neg hht] at hout
        rcases hcap : captureTiles (computeStep (applyDefaults r).viewportHeight
            (applyDefaults r).overlapPX) (applyDefaults r).viewportHeight
            (max env.docScrollHeight env.bodyScrollHeight) env.tileAt env.lastTile fuel 0 [] with
          _ | tiles2
        · rw [hcap] at hout
          simp at hout
        · rw [hcap] at hout
          simp at hout

/-- Request asking for the unrecognized format "WEBP" (uppercase, to exercise
the lowercasing). -/
def reqWebp : ScrapeRequest := { blankReq with imageFormat := "WEBP" }

/-- Response data produced for the WEBP request against `okEnv`. -/
def c10Data : List (String × JVal) := okData (applyDefaults reqWebp) okEnv 1 ""

/-- C10 witness: the format-fallback theorem at the concrete request with
image_format "WEBP": it is lowercased to "webp" and encoded as JPEG. -/
theorem c10_format_fallback_witness :
    lower (applyDefaults reqWebp).imageFormat ≠ "png" ∧
    responseData (handleScrape reqWebp okEnv 5) = some c10Data ∧
    List.lookup "content_type" c10Data = some (JVal.s "image/jpeg") :=
  ⟨by decide, rfl,
   (c10_format_fallback reqWebp okEnv 5 c10Data (by decide) rfl).1⟩

end WebScrape
